import Mathlib

/-!
Shallow embedding of the DirectPV device-discovery and reconciliation core
(uevent wire decoding, drive identity matching, drive reconciliation and
volume release), together with theorems checking the natural-language
specification against the code.

Go strings are modelled as Lean String values (List Char where character
level manipulation is required), Go int64/int as Lean Int, Go uint32
conversion as Euclidean remainder by 2^32, Go maps as association lists
(insert-at-front, first-match lookup = last-write-wins) with the nil map
modelled as Option.none so that assignment to a nil map is an explicit
run-time fault, and Go panics as an explicit GoPanic error value.
-/

/-- Run-time faults of the Go runtime that the embedded code can hit:
assignment to a nil map, and out-of-range slice indexing. -/
inductive GoPanic
  | nilMapWrite
  | indexOutOfRange
  deriving DecidableEq, Repr

namespace directcsi

/-- Drive status enum of the DirectCSIDrive API
(Available, Unavailable, InUse, Ready, Terminating). -/
inductive DriveStatus
  | Available
  | Unavailable
  | InUse
  | Ready
  | Terminating
  deriving DecidableEq, Repr

end directcsi

/-- Device snapshot (sys.Device): the fields read by the embedded code. -/
structure Device where
  Name : String := ""
  Major : Int := 0
  Minor : Int := 0
  Partition : Int := 0
  WWID : String := ""
  Model : String := ""
  Serial : String := ""
  UeventSerial : String := ""
  Vendor : String := ""
  DMName : String := ""
  DMUUID : String := ""
  MDUUID : String := ""
  PTUUID : String := ""
  PTType : String := ""
  PartUUID : String := ""
  UeventFSUUID : String := ""
  FSUUID : String := ""
  FSType : String := ""
  Size : Int := 0
  FreeCapacity : Int := 0
  LogicalBlockSize : Int := 0
  PhysicalBlockSize : Int := 0
  Virtual : Bool := false
  ReadOnly : Bool := false
  Partitioned : Bool := false
  SwapOn : Bool := false
  Master : String := ""
  FirstMountPoint : String := ""
  FirstMountOptions : List String := []
  MountPoints : List String := []
  deriving DecidableEq, Repr

/-- DirectCSIDrive record: the status fields, finalizers and labels read or
written by the embedded code (status fields of directcsi.DirectCSIDriveStatus
are inlined). Labels are an Option to model the Go nil map. -/
structure Drive where
  Filesystem : String := ""
  TotalCapacity : Int := 0
  AllocatedCapacity : Int := 0
  FreeCapacity : Int := 0
  LogicalBlockSize : Int := 0
  ModelNumber : String := ""
  PartitionNum : Int := 0
  Path : String := ""
  PhysicalBlockSize : Int := 0
  RootPartition : String := ""
  SerialNumber : String := ""
  FilesystemUUID : String := ""
  PartitionUUID : String := ""
  MajorNumber : Int := 0
  MinorNumber : Int := 0
  UeventSerial : String := ""
  UeventFSUUID : String := ""
  WWID : String := ""
  Vendor : String := ""
  DMName : String := ""
  DMUUID : String := ""
  MDUUID : String := ""
  PartTableUUID : String := ""
  PartTableType : String := ""
  Virtual : Bool := false
  ReadOnly : Bool := false
  Partitioned : Bool := false
  SwapOn : Bool := false
  Master : String := ""
  Mountpoint : String := ""
  MountOptions : List String := []
  DriveStatus : directcsi.DriveStatus := .Available
  NodeName : String := ""
  Topology : List (String × String) := []
  finalizers : List String := []
  labels : Option (List (String × String)) := none
  deriving DecidableEq, Repr

/-- Result triple of a matcher function: (match bool, consider bool, err);
err is always nil in the source, kept for faithfulness. -/
structure MatchResult where
  matched : Bool
  consider : Bool
  err : Option String := none
  deriving DecidableEq, Repr

/-- immutablePropertyMatcher of pkg/uevent/match.go: hardware-identity
truth table. The switch cases mirror the source: both empty means
consider (inconclusive); alpha empty with beta non-empty means conclusive
no-match; alpha non-empty with beta empty means consider; both non-empty
compare for equality with consider false either way. -/
def immutablePropertyMatcher (alpha beta : String) : MatchResult :=
  if alpha = "" ∧ beta = "" then { matched := false, consider := true }
  else if alpha = "" ∧ beta ≠ "" then { matched := false, consider := false }
  else if alpha ≠ "" ∧ beta = "" then { matched := false, consider := true }
  else if alpha = beta then { matched := true, consider := false }
  else { matched := false, consider := false }

/-- fsPropertyMatcher of pkg/uevent/match.go: filesystem-property truth
table. Every case is consider (inconclusive) except both values non-empty
and equal, which is a conclusive match. -/
def fsPropertyMatcher (alpha beta : String) : MatchResult :=
  if alpha = "" ∧ beta = "" then { matched := false, consider := true }
  else if alpha = "" ∧ beta ≠ "" then { matched := false, consider := true }
  else if alpha ≠ "" ∧ beta = "" then { matched := false, consider := true }
  else if alpha = beta then { matched := true, consider := false }
  else { matched := false, consider := true }

/-- sizeMatcher of pkg/uevent/match.go: like fsPropertyMatcher but on
int64 values with zero playing the role of the empty string. -/
def sizeMatcher (alpha beta : Int) : MatchResult :=
  if alpha = 0 ∧ beta = 0 then { matched := false, consider := true }
  else if alpha = 0 ∧ beta ≠ 0 then { matched := false, consider := true }
  else if alpha ≠ 0 ∧ beta = 0 then { matched := false, consider := true }
  else if alpha = beta then { matched := true, consider := false }
  else { matched := false, consider := true }

/-- partitionNumberMatcher: always conclusive comparison of partition
numbers (consider is always false in the source). -/
def partitionNumberMatcher (device : Device) (drive : Drive) : MatchResult :=
  { matched := decide (drive.PartitionNum = device.Partition), consider := false }

def ueventSerialNumberMatcher (device : Device) (drive : Drive) : MatchResult :=
  immutablePropertyMatcher device.UeventSerial drive.UeventSerial

def wwidMatcher (device : Device) (drive : Drive) : MatchResult :=
  immutablePropertyMatcher device.WWID drive.WWID

def modelNumberMatcher (device : Device) (drive : Drive) : MatchResult :=
  immutablePropertyMatcher device.Model drive.ModelNumber

def vendorMatcher (device : Device) (drive : Drive) : MatchResult :=
  immutablePropertyMatcher device.Vendor drive.Vendor

def partitionUUIDMatcher (device : Device) (drive : Drive) : MatchResult :=
  immutablePropertyMatcher device.PartUUID drive.PartitionUUID

def dmUUIDMatcher (device : Device) (drive : Drive) : MatchResult :=
  immutablePropertyMatcher device.DMUUID drive.DMUUID

def mdUUIDMatcher (device : Device) (drive : Drive) : MatchResult :=
  immutablePropertyMatcher device.MDUUID drive.MDUUID

def serialNumberMatcher (device : Device) (drive : Drive) : MatchResult :=
  immutablePropertyMatcher device.Serial drive.SerialNumber

def ueventFSUUIDMatcher (device : Device) (drive : Drive) : MatchResult :=
  fsPropertyMatcher device.UeventFSUUID drive.UeventFSUUID

def fsUUIDMatcher (device : Device) (drive : Drive) : MatchResult :=
  fsPropertyMatcher device.FSUUID drive.FilesystemUUID

def logicalBlocksizeMatcher (device : Device) (drive : Drive) : MatchResult :=
  sizeMatcher device.LogicalBlockSize drive.LogicalBlockSize

/-- The ordered matcher list (var matchers of pkg/uevent/match.go):
hardware-identity matchers first, then software and filesystem identity,
then logical block size. -/
def matchers : List (Device → Drive → MatchResult) :=
  [partitionNumberMatcher,
   ueventSerialNumberMatcher,
   wwidMatcher,
   modelNumberMatcher,
   vendorMatcher,
   partitionUUIDMatcher,
   dmUUIDMatcher,
   mdUUIDMatcher,
   ueventFSUUIDMatcher,
   fsUUIDMatcher,
   serialNumberMatcher,
   logicalBlocksizeMatcher]

/-- Inner matcher loop of getMatchingDrives: walk the matcher list until a
conclusive (consider = false) outcome, recording the index of the breaking
matcher (the source records the function pointer in matchedFn); none when
every matcher is inconclusive. -/
def firstConclusiveMatch (device : Device) (drive : Drive) :
    List (Device → Drive → MatchResult) → Nat → List Nat × Option Bool
  | [], _ => ([], none)
  | f :: fs, i =>
    let r := f device drive
    if r.consider then firstConclusiveMatch device drive fs (i + 1)
    else ([i], some r.matched)

/-- Classification of one candidate drive against the ordered matcher
list, starting at index 0. -/
def classifyDrive (device : Device) (drive : Drive) : List Nat × Option Bool :=
  firstConclusiveMatch device drive matchers 0

/-- The matchList named return value of getMatchingDrives, a Go map keyed
by drive pointer (modelled by the position of the drive in the candidate
list); none models the nil map of an uninitialized named return. -/
def MatchListMap : Type := Option (List (Nat × List Nat))

/-- Go map assignment: writing to a nil map is a run-time panic. -/
def mapAssign (m : MatchListMap) (k : Nat) (v : List Nat) :
    Except GoPanic MatchListMap :=
  match m with
  | none => .error GoPanic.nilMapWrite
  | some l => .ok (some ((k, v) :: l))

/-- Loop body of getMatchingDrives: classify each drive, append matched
drives, then execute the matchList assignment exactly as the source does
on every iteration. -/
def getMatchingDrivesAux (device : Device) :
    List Drive → Nat → List Drive → MatchListMap →
    Except GoPanic (List Drive × MatchListMap)
  | [], _, matchedDrives, matchList => .ok (matchedDrives, matchList)
  | drive :: rest, i, matchedDrives, matchList =>
    let cls := classifyDrive device drive
    let matchedDrives :=
      match cls.2 with
      | some true => matchedDrives ++ [drive]
      | _ => matchedDrives
    match mapAssign matchList i cls.1 with
    | .error p => .error p
    | .ok m => getMatchingDrivesAux device rest (i + 1) matchedDrives m

/-- getMatchingDrives of pkg/uevent/match.go: the named return matchList
is never initialized, so it starts as the nil map (none). -/
def getMatchingDrives (device : Device) (drives : List Drive) :
    Except GoPanic (List Drive × MatchListMap) :=
  getMatchingDrivesAux device drives 0 [] none

/-- Error results of runMatcher. -/
inductive MatchError
  | noMatchFound
  | tooManyMatches (name : String)
  deriving DecidableEq, Repr

/-- runMatcher of pkg/uevent/match.go: one match is success, zero is the
no-matching-drive signal, more than one is the too-many-matches error. -/
def runMatcher (device : Device) (drives : List Drive) :
    Except GoPanic (Except MatchError Drive) :=
  match getMatchingDrives device drives with
  | .error p => .error p
  | .ok (matchedDrives, _) =>
    .ok (match matchedDrives with
      | [d] => .ok d
      | [] => .error .noMatchFound
      | _ => .error (.tooManyMatches device.Name))

/-- ReplaceAll with a one-character pattern and empty replacement deletes
every occurrence of that character (strings modelled as character lists
for this character-level code). -/
def removeAllChar (s : List Char) (c : Char) : List Char :=
  s.filter (fun x => x ≠ c)

/-- The stripped value of normalizeUUID in pkg/uevent/listener.go:
ReplaceAll(ReplaceAll(uuid, colon, empty), dash, empty). -/
def stripUUIDSeparators (uuid : List Char) : List Char :=
  removeAllChar (removeAllChar uuid ':') '-'

/-- The Sprintf dashed regrouping of normalizeUUID: slices 0-8, 8-12,
12-16, 16-20 and 20-end of the stripped value joined by dashes. -/
def dashedUUIDGroups (u : List Char) : List Char :=
  u.take 8 ++ '-' :: ((u.drop 8).take 4 ++ '-' :: ((u.drop 12).take 4 ++
    '-' :: ((u.drop 16).take 4 ++ '-' :: u.drop 20)))

/-- normalizeUUID of pkg/uevent/listener.go: strip colons and dashes; if
the stripped value is longer than 20 characters return its dashed
regrouping, otherwise return the input unchanged. -/
def normalizeUUID (uuid : List Char) : List Char :=
  let u := stripUUIDSeparators uuid
  if 20 < u.length then dashedUUIDGroups u else uuid

/-- A character list free of the two separator characters. -/
def noSeps (u : List Char) : Prop :=
  ∀ c ∈ u, c ≠ ':' ∧ c ≠ '-'

instance (u : List Char) : Decidable (noSeps u) := by
  unfold noSeps
  infer_instance

/-- Bytes of an ASCII string, for building uevent wire buffers. -/
def strBytes (s : String) : List Nat :=
  s.toList.map Char.toNat

/-- The fixed 8-byte libudev signature (the string libudev followed by a
NUL byte). -/
def libudev : List Nat :=
  strBytes "libudev" ++ [0]

/-- The fixed big-endian magic constant 0xfeedcafe. -/
def libudevMagic : Nat := 0xfeedcafe

/-- minMsgLen of pkg/uevent/listener.go. The constant is declared in the
source but never consulted by parse. -/
def minMsgLen : Nat := 40

/-- Decoded key-value event data; insert-at-front with first-match lookup
models the last-write-wins Go map. -/
def EventMap : Type := List (String × String)

/-- Go map assignment for the event map. -/
def mapSet (m : EventMap) (k v : String) : EventMap :=
  (k, v) :: m

/-- Go map read with the zero-value default for a missing key. -/
def eventMapGet (m : EventMap) (k : String) : String :=
  ((List.find? (fun p => p.1 == k) m).map Prod.snd).getD ""

/-- bytes.Split on the single NUL delimiter: splitting the empty slice
yields one empty piece, and every NUL starts a new piece. -/
def splitOnNul : List Nat → List (List Nat)
  | [] => [[]]
  | b :: rest =>
    if b = 0 then [] :: splitOnNul rest
    else
      match splitOnNul rest with
      | [] => [[b]]
      | f :: fs => (b :: f) :: fs

/-- strings.SplitN on the equals sign with limit 2: the key before the
first equals sign and the raw remainder, or none when there is none. -/
def splitN2 : List Char → Option (List Char × List Char)
  | [] => none
  | c :: rest =>
    if c = '=' then some ([], rest)
    else
      match splitN2 rest with
      | none => none
      | some (k, v) => some (c :: k, v)

/-- The field loop of parse: skip empty fields, record bare keys with an
empty value and split KEY=VALUE fields at the first equals sign. -/
def buildEventMap (payload : List Nat) : EventMap :=
  (splitOnNul payload).foldl
    (fun m field =>
      if field.length = 0 then m
      else
        let cs := field.map (fun b => Char.ofNat b)
        match splitN2 cs with
        | none => mapSet m (String.mk cs) ""
        | some (k, v) => mapSet m (String.mk k) (String.mk v))
    []

/-- Decode errors reported by parse, one constructor per distinct error. -/
inductive ParseErr
  | signatureNotFound
  | magicMismatch (got : Nat)
  | invalidOffset (offset : Nat)
  | offsetBeyondLength (offset length : Nat)
  deriving DecidableEq, Repr

/-- parse of pkg/uevent/listener.go. The source reads the four magic bytes
at indices 8 to 11 and the payload offset byte at index 16 with unguarded
indexing, so a buffer long enough to carry the signature but shorter than
12 (respectively 17) bytes hits the Go bounds check and panics; those
implicit runtime checks appear here as the explicit indexOutOfRange
branches. -/
def parse (msg : List Nat) : Except GoPanic (Except ParseErr EventMap) :=
  if ¬ libudev.isPrefixOf msg then .ok (.error .signatureNotFound)
  else if msg.length < 12 then .error GoPanic.indexOutOfRange
  else
    let magic := ((msg.getD 8 0 * 256 + msg.getD 9 0) * 256 + msg.getD 10 0) * 256
      + msg.getD 11 0
    if magic ≠ libudevMagic then .ok (.error (.magicMismatch magic))
    else if msg.length < 17 then .error GoPanic.indexOutOfRange
    else
      let offset := msg.getD 16 0
      if offset < 17 then .ok (.error (.invalidOffset offset))
      else if offset > msg.length then .ok (.error (.offsetBeyondLength offset msg.length))
      else .ok (.ok (buildEventMap (msg.drop offset)))

/-- Decode errors of the udev-data path of the listener. -/
inductive UdevError
  | parseFailed (e : ParseErr)
  | nonDeviceEvent
  | atoiFailed (s : String)
  | invalidAction (action : String)
  | external (msg : String)
  deriving DecidableEq, Repr

/-- strconv.Atoi: optional sign followed by at least one decimal digit. -/
def goAtoi (s : String) : Option Int :=
  let step := fun (sign : Int) (digits : List Char) =>
    if digits = [] then none
    else if digits.all Char.isDigit then
      some (sign * digits.foldl (fun n c => n * 10 + ((c.toNat : Int) - 48)) 0)
    else none
  match s.toList with
  | [] => none
  | '+' :: r => step 1 r
  | '-' :: r => step (-1) r
  | cs => step 1 cs

/-- parseUdevData of pkg/uevent/listener.go, parameterized over the two
on-disk udev readers (udev.ReadRunUdevData and udev.EventMapToUdevData)
whose sources are outside this repository slice. The subsystem test is
transcribed as written: the not-a-block-device error is returned when the
SUBSYSTEM value equals block. -/
def parseUdevData {δ : Type} (readRunUdevData : Int → Int → Except String δ)
    (eventMapToUdevData : EventMap → Except String δ)
    (buf : List Nat) : Except GoPanic (Except UdevError δ) :=
  match parse buf with
  | .error p => .error p
  | .ok (.error e) => .ok (.error (.parseFailed e))
  | .ok (.ok eventMap) =>
    if eventMapGet eventMap "SUBSYSTEM" = "block" then .ok (.error .nonDeviceEvent)
    else
      match eventMapGet eventMap "ACTION" with
      | "add" | "change" =>
        match goAtoi (eventMapGet eventMap "MAJOR") with
        | none => .ok (.error (.atoiFailed (eventMapGet eventMap "MAJOR")))
        | some major =>
          match goAtoi (eventMapGet eventMap "MINOR") with
          | none => .ok (.error (.atoiFailed (eventMapGet eventMap "MINOR")))
          | some minor =>
            match readRunUdevData major minor with
            | .error m => .ok (.error (.external m))
            | .ok d => .ok (.ok d)
      | "remove" =>
        match eventMapToUdevData eventMap with
        | .error m => .ok (.error (.external m))
        | .ok d => .ok (.ok d)
      | a => .ok (.error (.invalidAction a))

/-- Outcome of one call to the listener read loop over a finite stream of
buffers: a delivered event, a propagated error, a runtime fault, or the
loop still blocked reading when the modelled stream is exhausted. -/
inductive LoopResult (δ : Type)
  | panic (p : GoPanic)
  | fail (e : UdevError)
  | ok (d : δ)
  | blocked
  deriving DecidableEq, Repr

/-- getNextDeviceUEvent of pkg/uevent/listener.go over a finite stream of
received buffers: buffers whose decode error is the not-a-block-device
signal are skipped silently, any other decode error is returned to the
caller (terminating the read loop), and the first successfully decoded
event is delivered. -/
def getNextDeviceUEvent {δ : Type} (readRunUdevData : Int → Int → Except String δ)
    (eventMapToUdevData : EventMap → Except String δ) :
    List (List Nat) → LoopResult δ
  | [] => .blocked
  | buf :: rest =>
    match parseUdevData readRunUdevData eventMapToUdevData buf with
    | .error p => .panic p
    | .ok (.ok d) => .ok d
    | .ok (.error e) =>
      if e = .nonDeviceEvent then getNextDeviceUEvent readRunUdevData eventMapToUdevData rest
      else .fail e

/-- A well-formed uevent wire message: signature, magic, four padding
bytes, payload offset 17 at byte 16, then the payload bytes. -/
def ueventMsg (payload : String) : List Nat :=
  libudev ++ [0xfe, 0xed, 0xca, 0xfe] ++ [0, 0, 0, 0] ++ [17] ++ strBytes payload

/-- A uevent message whose parsed SUBSYSTEM value is the string block:
per the specification this is exactly a block-device event and must be
decoded and delivered. -/
def blockSubsystemMsg : List Nat :=
  ueventMsg "SUBSYSTEM=block\x00ACTION=remove\x00DEVPATH=/devices/sda\x00"

/-- A uevent message whose parsed SUBSYSTEM value is not block: per the
specification the decoder must signal not-a-block-device for it. -/
def nonBlockSubsystemMsg : List Nat :=
  ueventMsg "SUBSYSTEM=disk\x00ACTION=remove\x00"

/-- A message with the signature but a zeroed magic field: a decode error
that is not the not-a-block-device signal. -/
def badMagicMsg : List Nat :=
  libudev ++ [0, 0, 0, 0] ++ [0, 0, 0, 0] ++ [17] ++ strBytes "SUBSYSTEM=disk\x00"

/-- Modelled from the spec: directcsi.DirectCSIDriveFinalizerPrefix, the
fixed prefix concatenated with a volume name to form the drive-to-volume
finalizer; the constant itself lives in the API package outside this
repository slice and every theorem uses it only through this definition. -/
def driveFinalizerPfx : String := "direct.csi.min.io/"

/-- Modelled from the spec: directcsi.DirectCSIDriveFinalizerDataProtection,
the data-protection marker finalizer of a Drive. -/
def dataProtectionFinalizer : String := "direct.csi.min.io/data-protection"

/-- Modelled from the spec: directcsi.DirectCSIVolumeFinalizerPurgeProtection,
the purge-protection finalizer of a Volume. -/
def purgeProtectionFinalizer : String := "direct.csi.min.io/purge-protection"

/-- excludeFinalizer of pkg/volume/volume.go: keep every finalizer other
than the given one, reporting whether it was found. -/
def excludeFinalizer : List String → String → List String × Bool
  | [], _ => ([], false)
  | f :: fs, fin =>
    let r := excludeFinalizer fs fin
    if f ≠ fin then (f :: r.1, r.2) else (r.1, true)

/-- releaseVolume of pkg/volume/volume.go, acting on the Drive record
fetched from the store; the returned Bool records whether the conditional
store update was issued (it is issued exactly when the finalizer was
found). If exactly one finalizer remains and it is the data-protection
marker, the drive status becomes Ready; the volume capacity is added back
to the free capacity and the allocated capacity is recomputed from the
total. -/
def releaseVolume (drive : Drive) (volumeName : String) (capacity : Int) :
    Drive × Bool :=
  let r := excludeFinalizer drive.finalizers (driveFinalizerPfx ++ volumeName)
  if r.2 then
    let drive :=
      match r.1 with
      | [f] =>
        if f = dataProtectionFinalizer then { drive with DriveStatus := .Ready }
        else drive
      | _ => drive
    let drive := { drive with finalizers := r.1 }
    let drive := { drive with FreeCapacity := drive.FreeCapacity + capacity }
    let drive := { drive with AllocatedCapacity := drive.TotalCapacity - drive.FreeCapacity }
    (drive, true)
  else (drive, false)

/-- Lifecycle condition of a Volume (condition type and status strings). -/
structure VolumeCondition where
  condType : String := ""
  status : String := ""
  deriving DecidableEq, Repr

/-- DirectCSIVolume record: the fields read by the embedded code. -/
structure Volume where
  Name : String := ""
  Drive : String := ""
  TotalCapacity : Int := 0
  HostPath : String := ""
  NodeName : String := ""
  conditions : List VolumeCondition := []
  finalizers : List String := []
  deletionTimestampIsZero : Bool := true
  deriving DecidableEq, Repr

/-- Everything observable about one run of the volume teardown handler:
the possibly mutated records, whether the volume host directory was
removed, and whether each record was written to the store. -/
structure RemoveOutcome where
  err : Option String := none
  volume : Volume
  drive : Drive
  hostPathRemoved : Bool := false
  driveWritten : Bool := false
  volumeWritten : Bool := false
  deriving DecidableEq, Repr

/-- remove of pkg/volume/volume.go (VolumeEventHandler.remove): ignore
volumes without a deletion timestamp; error out without any mutation while
a Published condition is true; otherwise remove the host directory,
release the volume from its drive, drop the purge-protection finalizer and
write the volume. removeAllOk injects the result of os.RemoveAll. -/
def remove (volume : Volume) (drive : Drive) (removeAllOk : Bool) : RemoveOutcome :=
  if volume.deletionTimestampIsZero then
    { volume := volume, drive := drive }
  else if volume.conditions.any
      (fun c => c.condType == "Published" && c.status == "True") then
    { err := some "waiting for volume to be released before cleaning up",
      volume := volume, drive := drive }
  else if ¬ removeAllOk then
    { err := some "remove host path failed", volume := volume, drive := drive }
  else
    let r := releaseVolume drive volume.Name volume.TotalCapacity
    let fs := excludeFinalizer volume.finalizers purgeProtectionFinalizer
    { volume := { volume with finalizers := fs.1 },
      drive := r.1,
      hostPathRemoved := true,
      driveWritten := r.2,
      volumeWritten := true }

/-- strings.ToLower modelled character by character (the identity on the
ASCII device data these comparisons see), kept kernel-reducible. -/
def goToLower (s : String) : String :=
  String.mk (s.data.map Char.toLower)

/-- Modelled from the spec: sys.FSTypeEqual (the sys package is outside
this repository slice); filesystem types compare case-insensitively. -/
def fsTypeEqual (a b : String) : Bool :=
  goToLower a == goToLower b

/-- isDOSPTType of pkg/uevent/match.go: dos, msdos and mbr name the same
partition table type. -/
def isDOSPTType (ptType : String) : Bool :=
  ptType == "dos" || ptType == "msdos" || ptType == "mbr"

/-- ptTypeEqual of pkg/uevent/match.go: lower-case both names, equal names
match, and any two DOS-family names match. -/
def ptTypeEqual (ptType1 ptType2 : String) : Bool :=
  let t1 := goToLower ptType1
  let t2 := goToLower ptType2
  t1 == t2 || (isDOSPTType t1 && isDOSPTType t2)

/-- isDirectCSIMount of the node package: an empty mount point list is
acceptable, otherwise some mount point must live under the managed root. -/
def isDirectCSIMount (mountPoints : List String) : Bool :=
  if mountPoints = [] then true
  else mountPoints.any (fun m => "/var/lib/direct-csi/".isPrefixOf m)

/-- Modelled from the spec: sys.MinSupportedDeviceSize, the minimum device
size threshold (constant outside this repository slice; no claim below
depends on its numeric value). -/
def minSupportedDeviceSize : Int := 16777216

/-- sys.MountRoot, the managed mount root named in the source comments of
driveEventHandler.update (/var/lib/direct-csi/mnt). -/
def mountRoot : String := "/var/lib/direct-csi/mnt"

/-- filepath.Join of the managed root and a filesystem UUID. -/
def joinPath (a b : String) : String :=
  a ++ "/" ++ b

/-- Modelled from the spec: utils.DriveLabelKey, the drive-path label key
(constant outside this repository slice). -/
def driveLabelKey : String := "direct.csi.min.io/path"

/-- Go uint32 conversion: two-complement truncation is the Euclidean
remainder by 2^32. -/
def u32 (n : Int) : Int :=
  n.emod 4294967296

/-- Label map write with nil-map initialization (the source initializes
drive.Labels when nil before assigning). -/
def labelsSet (labels : Option (List (String × String))) (k v : String) :
    Option (List (String × String)) :=
  match labels with
  | none => some [(k, v)]
  | some l => some ((k, v) :: l)

/-- Modelled from the spec: client.NewDriveStatus (outside this repository
slice), the drive status recomputed from device properties alone; it
mirrors the inline status computation of syncDriveStates: Available unless
the device is too small, read-only, partitioned, swap-active, mastered by
another device, or mounted outside the managed mount area. -/
def deriveDriveStatus (device : Device) : directcsi.DriveStatus :=
  if device.Size < minSupportedDeviceSize ∨ device.ReadOnly = true ∨
      device.Partitioned = true ∨ device.SwapOn = true ∨ device.Master ≠ "" ∨
      ¬ isDirectCSIMount device.MountPoints = true then
    .Unavailable
  else .Available

/-- Everything driveEventHandler.update decides: the reconciled record,
whether a store write is issued (exactly when updated is true), whether
the path-derived name changed (which triggers the volume label sync), and
whether a filesystem UUID change was observed. -/
structure UpdateOutcome where
  drive : Drive
  updated : Bool := false
  nameChanged : Bool := false
  fsUUIDChanged : Bool := false
  deriving DecidableEq, Repr

/-- One diff-and-sync block of driveEventHandler.update per definition
below: each carries the (drive, updated) state through the corresponding
if-block of the source, in source order. -/
def upFilesystem (device : Device) (s : Drive × Bool) : Drive × Bool :=
  if fsTypeEqual s.1.Filesystem device.FSType then s
  else ({ s.1 with Filesystem := device.FSType }, true)

def upTotalCapacity (device : Device) (s : Drive × Bool) : Drive × Bool :=
  if s.1.TotalCapacity = device.Size then s
  else
    let t : Drive := { s.1 with TotalCapacity := device.Size }
    let t : Drive :=
      if t.AllocatedCapacity > t.TotalCapacity then
        { t with AllocatedCapacity := t.TotalCapacity }
      else t
    ({ t with FreeCapacity := t.TotalCapacity - t.AllocatedCapacity }, true)

def upLogicalBlockSize (device : Device) (s : Drive × Bool) : Drive × Bool :=
  if s.1.LogicalBlockSize = device.LogicalBlockSize then s
  else ({ s.1 with LogicalBlockSize := device.LogicalBlockSize }, true)

def upModelNumber (device : Device) (s : Drive × Bool) : Drive × Bool :=
  if s.1.ModelNumber = device.Model then s
  else ({ s.1 with ModelNumber := device.Model }, true)

def upPartitionNum (device : Device) (s : Drive × Bool) : Drive × Bool :=
  if s.1.PartitionNum = device.Partition then s
  else ({ s.1 with PartitionNum := device.Partition }, true)

/-- The path block: also reports whether the name changed (third
component), and refreshes the drive-path label. -/
def upPath (sanitize : String → String) (device : Device) (s : Drive × Bool) :
    Drive × Bool × Bool :=
  if s.1.Path = "/dev/" ++ device.Name then (s.1, s.2, false)
  else
    ({ s.1 with
        Path := ("/dev/" ++ device.Name)
        labels := labelsSet s.1.labels driveLabelKey (sanitize device.Name) },
      true, true)

def upPhysicalBlockSize (device : Device) (s : Drive × Bool) : Drive × Bool :=
  if s.1.PhysicalBlockSize = device.PhysicalBlockSize then s
  else ({ s.1 with PhysicalBlockSize := device.PhysicalBlockSize }, true)

def upRootPartition (device : Device) (s : Drive × Bool) : Drive × Bool :=
  if s.1.RootPartition = device.Name then s
  else ({ s.1 with RootPartition := device.Name }, true)

def upSerialNumber (device : Device) (s : Drive × Bool) : Drive × Bool :=
  if s.1.SerialNumber = device.Serial then s
  else ({ s.1 with SerialNumber := device.Serial }, true)

/-- The filesystem UUID block: also reports the change (third component). -/
def upFilesystemUUID (device : Device) (s : Drive × Bool) : Drive × Bool × Bool :=
  if s.1.FilesystemUUID = device.FSUUID then (s.1, s.2, false)
  else ({ s.1 with FilesystemUUID := device.FSUUID }, true, true)

def upPartitionUUID (device : Device) (s : Drive × Bool) : Drive × Bool :=
  if s.1.PartitionUUID = device.PartUUID then s
  else ({ s.1 with PartitionUUID := device.PartUUID }, true)

def upMajorNumber (device : Device) (s : Drive × Bool) : Drive × Bool :=
  if s.1.MajorNumber = u32 device.Major then s
  else ({ s.1 with MajorNumber := u32 device.Major }, true)

def upMinorNumber (device : Device) (s : Drive × Bool) : Drive × Bool :=
  if s.1.MinorNumber = u32 device.Minor then s
  else ({ s.1 with MinorNumber := u32 device.Minor }, true)

def upUeventSerial (device : Device) (s : Drive × Bool) : Drive × Bool :=
  if s.1.UeventSerial = device.UeventSerial then s
  else ({ s.1 with UeventSerial := device.UeventSerial }, true)

/-- The uevent filesystem UUID block: also reports the change. -/
def upUeventFSUUID (device : Device) (s : Drive × Bool) : Drive × Bool × Bool :=
  if s.1.UeventFSUUID = device.UeventFSUUID then (s.1, s.2, false)
  else ({ s.1 with UeventFSUUID := device.UeventFSUUID }, true, true)

def upWWID (device : Device) (s : Drive × Bool) : Drive × Bool :=
  if s.1.WWID = device.WWID then s
  else ({ s.1 with WWID := device.WWID }, true)

def upVendor (device : Device) (s : Drive × Bool) : Drive × Bool :=
  if s.1.Vendor = device.Vendor then s
  else ({ s.1 with Vendor := device.Vendor }, true)

def upDMName (device : Device) (s : Drive × Bool) : Drive × Bool :=
  if s.1.DMName = device.DMName then s
  else ({ s.1 with DMName := device.DMName }, true)

def upDMUUID (device : Device) (s : Drive × Bool) : Drive × Bool :=
  if s.1.DMUUID = device.DMUUID then s
  else ({ s.1 with DMUUID := device.DMUUID }, true)

def upMDUUID (device : Device) (s : Drive × Bool) : Drive × Bool :=
  if s.1.MDUUID = device.MDUUID then s
  else ({ s.1 with MDUUID := device.MDUUID }, true)

def upPartTableUUID (device : Device) (s : Drive × Bool) : Drive × Bool :=
  if s.1.PartTableUUID = device.PTUUID then s
  else ({ s.1 with PartTableUUID := device.PTUUID }, true)

def upPartTableType (device : Device) (s : Drive × Bool) : Drive × Bool :=
  if ptTypeEqual s.1.PartTableType device.PTType then s
  else ({ s.1 with PartTableType := device.PTType }, true)

def upVirtual (device : Device) (s : Drive × Bool) : Drive × Bool :=
  if s.1.Virtual = device.Virtual then s
  else ({ s.1 with Virtual := device.Virtual }, true)

def upReadOnly (device : Device) (s : Drive × Bool) : Drive × Bool :=
  if s.1.ReadOnly = device.ReadOnly then s
  else ({ s.1 with ReadOnly := device.ReadOnly }, true)

def upPartitioned (device : Device) (s : Drive × Bool) : Drive × Bool :=
  if s.1.Partitioned = device.Partitioned then s
  else ({ s.1 with Partitioned := device.Partitioned }, true)

def upSwapOn (device : Device) (s : Drive × Bool) : Drive × Bool :=
  if s.1.SwapOn = device.SwapOn then s
  else ({ s.1 with SwapOn := device.SwapOn }, true)

def upMaster (device : Device) (s : Drive × Bool) : Drive × Bool :=
  if s.1.Master = device.Master then s
  else ({ s.1 with Master := device.Master }, true)

/-- The mount point switch of driveEventHandler.update: for an active
drive a filesystem UUID change is the pending anomaly (no action); a new
mount point is accepted only when it is the managed mount path keyed by
the recorded filesystem UUID; available and unavailable drives always sync
the mount point. -/
def upMount (device : Device) (fsUUIDChanged : Bool) (s : Drive × Bool) :
    Drive × Bool :=
  match s.1.DriveStatus with
  | .InUse | .Ready | .Terminating =>
    if fsUUIDChanged then s
    else if device.FirstMountPoint ≠ "" ∧ s.1.Mountpoint ≠ device.FirstMountPoint then
      (if device.FirstMountPoint ≠ joinPath mountRoot s.1.FilesystemUUID then s
        else ({ s.1 with
            Mountpoint := device.FirstMountPoint
            MountOptions := device.FirstMountOptions }, true))
    else s
  | _ =>
    if s.1.Mountpoint = device.FirstMountPoint then s
    else ({ s.1 with
        Mountpoint := device.FirstMountPoint
        MountOptions := device.FirstMountOptions }, true)

/-- The drive status switch of driveEventHandler.update: a recomputed
status differing from the recorded one is applied only when the drive is
not in use, ready or terminating (for those the transition is the flagged
anomaly with no action). -/
def upDriveStatus (device : Device) (s : Drive × Bool) : Drive × Bool :=
  if deriveDriveStatus device = s.1.DriveStatus then s
  else
    match s.1.DriveStatus with
    | .InUse | .Ready | .Terminating => s
    | _ => ({ s.1 with DriveStatus := deriveDriveStatus device }, true)

/-- update of pkg/node/uevent.go (driveEventHandler.update): the
field-by-field diff between the recorded drive status and the observed
device state, the special-cased mount point and drive status transitions,
and the updated flag that gates the store write, assembled from the block
functions above in source order. sanitize injects
utils.SanitizeDrivePath, whose source is outside this repository slice. -/
def update (sanitize : String → String) (device : Device) (drive0 : Drive) :
    UpdateOutcome :=
  let s1 := upFilesystem device (drive0, false)
  let s2 := upTotalCapacity device s1
  let s3 := upLogicalBlockSize device s2
  let s4 := upModelNumber device s3
  let s5 := upPartitionNum device s4
  let s6 := upPath sanitize device s5
  let s7 := upPhysicalBlockSize device (s6.1, s6.2.1)
  let s8 := upRootPartition device s7
  let s9 := upSerialNumber device s8
  let s10 := upFilesystemUUID device s9
  let s11 := upPartitionUUID device (s10.1, s10.2.1)
  let s12 := upMajorNumber device s11
  let s13 := upMinorNumber device s12
  let s14 := upUeventSerial device s13
  let s15 := upUeventFSUUID device s14
  let fsUUIDChanged := s10.2.2 || s15.2.2
  let s16 := upWWID device (s15.1, s15.2.1)
  let s17 := upVendor device s16
  let s18 := upDMName device s17
  let s19 := upDMUUID device s18
  let s20 := upMDUUID device s19
  let s21 := upPartTableUUID device s20
  let s22 := upPartTableType device s21
  let s23 := upVirtual device s22
  let s24 := upReadOnly device s23
  let s25 := upPartitioned device s24
  let s26 := upSwapOn device s25
  let s27 := upMaster device s26
  let m := upMount device fsUUIDChanged s27
  let st := upDriveStatus device m
  { drive := st.1, updated := st.2, nameChanged := s6.2.2,
    fsUUIDChanged := fsUUIDChanged }

/-- The unconditional state sync of syncDriveStates (the big block of
direct field assignments from the device). -/
def syncBase (nodeID : String) (topology : List (String × String))
    (device : Device) (drive : Drive) : Drive :=
  { drive with
    Filesystem := device.FSType
    LogicalBlockSize := device.LogicalBlockSize
    MountOptions := device.FirstMountOptions
    Mountpoint := device.FirstMountPoint
    NodeName := nodeID
    PartitionNum := device.Partition
    PhysicalBlockSize := device.PhysicalBlockSize
    RootPartition := device.Name
    FilesystemUUID := device.FSUUID
    PartitionUUID := device.PartUUID
    MajorNumber := u32 device.Major
    MinorNumber := u32 device.Minor
    Topology := topology
    UeventFSUUID := device.UeventFSUUID
    DMName := device.DMName
    DMUUID := device.DMUUID
    MDUUID := device.MDUUID
    PartTableUUID := device.PTUUID
    PartTableType := device.PTType
    Virtual := device.Virtual
    ReadOnly := device.ReadOnly
    Partitioned := device.Partitioned
    SwapOn := device.SwapOn
    Master := device.Master }

/-- The fill-hwinfo-only-if-empty block of syncDriveStates, one definition
per field. -/
def fillModelNumber (device : Device) (d : Drive) : Drive :=
  if d.ModelNumber = "" then { d with ModelNumber := device.Model } else d

def fillSerialNumber (device : Device) (d : Drive) : Drive :=
  if d.SerialNumber = "" then { d with SerialNumber := device.Serial } else d

def fillUeventSerial (device : Device) (d : Drive) : Drive :=
  if d.UeventSerial = "" then { d with UeventSerial := device.UeventSerial } else d

def fillWWID (device : Device) (d : Drive) : Drive :=
  if d.WWID = "" then { d with WWID := device.WWID } else d

def fillVendor (device : Device) (d : Drive) : Drive :=
  if d.Vendor = "" then { d with Vendor := device.Vendor } else d

/-- The tail of syncDriveStates: recompute the drive status from device
properties, refresh the path and its label, and resync the capacity
triple (an in-use drive keeps its allocated capacity). -/
def syncStatusPathCapacity (sanitize : String → String) (device : Device)
    (d : Drive) : Drive :=
  let d := { d with DriveStatus := deriveDriveStatus device }
  let d := { d with
    Path := ("/dev/" ++ device.Name)
    labels := labelsSet d.labels driveLabelKey (sanitize device.Name) }
  let d := { d with TotalCapacity := device.Size }
  let d :=
    if d.DriveStatus = .InUse then d
    else { d with AllocatedCapacity := device.Size - device.FreeCapacity }
  { d with FreeCapacity := d.TotalCapacity - d.AllocatedCapacity }

/-- syncDriveStates of the node package draft (src/unnamed/part_001):
overwrite the synced state fields from the device, fill the hardware
identity fields only when previously empty, recompute the drive status,
refresh the path and label, and resync the capacity triple. -/
def syncDriveStates (nodeID : String) (topology : List (String × String))
    (sanitize : String → String) (device : Device) (drive : Drive) : Drive :=
  syncStatusPathCapacity sanitize device
    (fillVendor device
      (fillWWID device
        (fillUeventSerial device
          (fillSerialNumber device
            (fillModelNumber device
              (syncBase nodeID topology device drive))))))

/-- Concrete device of the C9 witness scenario. -/
def c9Device : Device :=
  { Name := "sda", FSType := "xfs", FSUUID := "u", UeventFSUUID := "u",
    FirstMountPoint := "/var/lib/direct-csi/mnt/u" }

/-- Concrete InUse drive of the C9 witness scenario, recording exactly the
state c9Device reports. -/
def c9Drive : Drive :=
  { Filesystem := "xfs", Path := "/dev/sda", RootPartition := "sda",
    FilesystemUUID := "u", UeventFSUUID := "u",
    Mountpoint := "/var/lib/direct-csi/mnt/u", DriveStatus := .InUse }

/-- Concrete device of the C7 counterexample: it reports model M2 and WWID
W2 for a drive that recorded M1 and W1. -/
def c7Device : Device :=
  { Name := "sda", Model := "M2", WWID := "W2" }

/-- Concrete drive of the C7 counterexample with non-empty recorded model
number and WWID. -/
def c7Drive : Drive :=
  { ModelNumber := "M1", WWID := "W1" }

/-- Claim C1 (counterexample): the four-row truth table of section 4.4 does
not hold for the matchers in the list. With the Drive-recorded value
non-empty and the Device-observed value empty (here wwidMatcher on a drive
with WWID recorded as x and a device reporting no WWID), the section 4.4
table requires an inconclusive outcome, but immutablePropertyMatcher
returns matched = false and consider = false, a conclusive no-match. And
with both values non-empty and unequal, the table requires a conclusive
no-match, but fsPropertyMatcher (here ueventFSUUIDMatcher) returns
consider = true, an inconclusive outcome. -/
theorem C1_truth_table_counterexample :
    (wwidMatcher { Name := "sda" } { WWID := "x" } =
      { matched := false, consider := false }) ∧
    (ueventFSUUIDMatcher { UeventFSUUID := "a" } { UeventFSUUID := "b" } =
      { matched := false, consider := true }) := by
  constructor <;> rfl

/-- Claim C1 (amended): exact truth tables of the two per-property string
matcher kernels, with alpha the Device-observed value and beta the
Drive-recorded value as at every call site. immutablePropertyMatcher is
conclusive whenever beta (the Drive-recorded value) is non-empty: it
matches exactly when alpha is non-empty and equal to beta, and is
inconclusive exactly when beta is empty. fsPropertyMatcher matches exactly
when alpha is non-empty and equal to beta and is inconclusive in every
other case; it never returns a conclusive no-match. -/
theorem C1_matcher_truth_tables (alpha beta : String) :
    immutablePropertyMatcher alpha beta =
      { matched := decide (alpha ≠ "" ∧ alpha = beta),
        consider := decide (beta = "") } ∧
    fsPropertyMatcher alpha beta =
      { matched := decide (alpha ≠ "" ∧ alpha = beta),
        consider := decide ¬(alpha ≠ "" ∧ alpha = beta) } := by
  by_cases ha : alpha = "" <;> by_cases hb : beta = "" <;>
    by_cases hab : alpha = beta <;>
      simp_all [immutablePropertyMatcher, fsPropertyMatcher]

/-- Claim C4: getMatchingDrives executes the matchList assignment into its
never-initialized named-return map on every iteration, so it faults with a
nil-map write for every non-empty candidate list, and returns normally
exactly when the drives list is empty; consequently runMatcher propagates
the same fault for every non-empty candidate set. -/
theorem C4_getMatchingDrives_nil_map_fault (device : Device) (drives : List Drive)
    (h : drives ≠ []) :
    getMatchingDrives device drives = .error GoPanic.nilMapWrite ∧
    runMatcher device drives = .error GoPanic.nilMapWrite ∧
    getMatchingDrives device [] = .ok ([], none) := by
  refine ⟨?_, ?_, rfl⟩ <;> cases drives with
  | nil => exact absurd rfl h
  | cons d rest =>
    first
    | show getMatchingDrivesAux device (d :: rest) 0 [] none = .error GoPanic.nilMapWrite
      simp only [getMatchingDrivesAux]
      cases hc : (classifyDrive device d).2 with
      | none => rfl
      | some b => cases b <;> rfl
    | show runMatcher device (d :: rest) = .error GoPanic.nilMapWrite
      unfold runMatcher
      unfold getMatchingDrives
      simp only [getMatchingDrivesAux]
      cases hc : (classifyDrive device d).2 with
      | none => rfl
      | some b => cases b <;> rfl

/-- Claim C4 (witness): concrete evaluation at a one-drive candidate list. -/
theorem C4_getMatchingDrives_nil_map_fault_witness :
    getMatchingDrives { Name := "sda" } [{ WWID := "w" }] =
      .error GoPanic.nilMapWrite :=
  (C4_getMatchingDrives_nil_map_fault { Name := "sda" } [{ WWID := "w" }]
    (by decide)).1

/-- Claim C2: evaluating runMatcher on a device and two field-for-field
identical candidate drives matching it. The specified behavior is an
ambiguity report with match count 2; the code instead faults with the
nil-map write inside getMatchingDrives before producing any aggregate
decision, so no classification of a non-empty candidate set is possible. -/
theorem C2_runMatcher_faults_on_two_identical_drives :
    runMatcher { Name := "sda", WWID := "W1", Model := "M1" }
      [{ WWID := "W1", ModelNumber := "M1" }, { WWID := "W1", ModelNumber := "M1" }] =
      .error GoPanic.nilMapWrite := by
  rfl

theorem noSeps_stripUUIDSeparators (s : List Char) :
    noSeps (stripUUIDSeparators s) := by
  intro c hc
  simp only [stripUUIDSeparators, removeAllChar, List.mem_filter,
    decide_eq_true_eq] at hc
  rcases hc with ⟨⟨_, h1⟩, h2⟩
  exact ⟨h1, h2⟩

theorem stripUUIDSeparators_eq_self (u : List Char) (h : noSeps u) :
    stripUUIDSeparators u = u := by
  simp only [stripUUIDSeparators, removeAllChar]
  rw [List.filter_eq_self.mpr, List.filter_eq_self.mpr]
  · intro a ha
    exact decide_eq_true (h a ha).1
  · intro a ha
    rw [List.mem_filter] at ha
    exact decide_eq_true (h a ha.1).2

theorem stripUUIDSeparators_append (a b : List Char) :
    stripUUIDSeparators (a ++ b) =
      stripUUIDSeparators a ++ stripUUIDSeparators b := by
  simp [stripUUIDSeparators, removeAllChar, List.filter_append]

theorem stripUUIDSeparators_dash_cons (l : List Char) :
    stripUUIDSeparators ('-' :: l) = stripUUIDSeparators l := by
  simp [stripUUIDSeparators, removeAllChar]

theorem dashedUUIDGroups_concat (u : List Char) :
    u.take 8 ++ ((u.drop 8).take 4 ++ ((u.drop 12).take 4 ++
      ((u.drop 16).take 4 ++ u.drop 20))) = u := by
  have e1 : (u.drop 8).drop 4 = u.drop 12 := by
    rw [List.drop_drop]
  have e2 : (u.drop 12).drop 4 = u.drop 16 := by
    rw [List.drop_drop]
  have e3 : (u.drop 16).drop 4 = u.drop 20 := by
    rw [List.drop_drop]
  conv_rhs => rw [← List.take_append_drop 8 u]
  congr 1
  conv_rhs => rw [← List.take_append_drop 4 (u.drop 8), e1]
  congr 1
  conv_rhs => rw [← List.take_append_drop 4 (u.drop 12), e2]
  congr 1
  conv_rhs => rw [← List.take_append_drop 4 (u.drop 16), e3]

theorem strip_dashedUUIDGroups (u : List Char) (h : noSeps u) :
    stripUUIDSeparators (dashedUUIDGroups u) = u := by
  have hsub : ∀ v : List Char, v ⊆ u → noSeps v := by
    intro v hv c hc
    exact h c (hv hc)
  unfold dashedUUIDGroups
  rw [stripUUIDSeparators_append, stripUUIDSeparators_dash_cons,
    stripUUIDSeparators_append, stripUUIDSeparators_dash_cons,
    stripUUIDSeparators_append, stripUUIDSeparators_dash_cons,
    stripUUIDSeparators_append, stripUUIDSeparators_dash_cons]
  rw [stripUUIDSeparators_eq_self _ (hsub _ (List.take_subset 8 u)),
    stripUUIDSeparators_eq_self _ (hsub _ (fun c hc =>
      List.drop_subset 8 u (List.take_subset 4 _ hc))),
    stripUUIDSeparators_eq_self _ (hsub _ (fun c hc =>
      List.drop_subset 12 u (List.take_subset 4 _ hc))),
    stripUUIDSeparators_eq_self _ (hsub _ (fun c hc =>
      List.drop_subset 16 u (List.take_subset 4 _ hc))),
    stripUUIDSeparators_eq_self _ (hsub _ (List.drop_subset 20 u))]
  exact dashedUUIDGroups_concat u

/-- Claim C10: normalizeUUID is idempotent on every input string; inputs
whose colon- and dash-stripped form is at most 20 characters pass through
unchanged; inputs whose stripped form is longer than 20 characters map to
the dashed 8-4-4-4-rest regrouping of the stripped value; and an
already-normalized dashed UUID (the dashed regrouping of a 32-character
separator-free core, 36 characters in all) is returned unchanged. -/
theorem C10_normalizeUUID_idempotent :
    (∀ s : List Char, normalizeUUID (normalizeUUID s) = normalizeUUID s) ∧
    (∀ s : List Char, (stripUUIDSeparators s).length ≤ 20 →
      normalizeUUID s = s) ∧
    (∀ s : List Char, 20 < (stripUUIDSeparators s).length →
      normalizeUUID s = dashedUUIDGroups (stripUUIDSeparators s)) ∧
    (∀ u : List Char, u.length = 32 → noSeps u →
      normalizeUUID (dashedUUIDGroups u) = dashedUUIDGroups u) := by
  have hshort : ∀ s : List Char, (stripUUIDSeparators s).length ≤ 20 →
      normalizeUUID s = s := by
    intro s h
    unfold normalizeUUID
    rw [if_neg (by omega)]
  have hlong : ∀ s : List Char, 20 < (stripUUIDSeparators s).length →
      normalizeUUID s = dashedUUIDGroups (stripUUIDSeparators s) := by
    intro s h
    unfold normalizeUUID
    rw [if_pos h]
  have hdash : ∀ u : List Char, 20 < u.length → noSeps u →
      normalizeUUID (dashedUUIDGroups u) = dashedUUIDGroups u := by
    intro u hu hsep
    have hs := strip_dashedUUIDGroups u hsep
    unfold normalizeUUID
    rw [hs, if_pos hu]
  refine ⟨?_, hshort, hlong, fun u hu hsep => hdash u (by omega) hsep⟩
  intro s
  by_cases h : 20 < (stripUUIDSeparators s).length
  · rw [hlong s h]
    exact hdash _ h (noSeps_stripUUIDSeparators s)
  · have h2 := hshort s (by omega)
    rw [h2, h2]

/-- Claim C10 (witness): the theorem applied at concrete inputs; a
32-character stripped core regroups to the canonical dashed form and an
already-canonical dashed UUID is a fixed point. -/
theorem C10_normalizeUUID_idempotent_witness :
    (20 < (stripUUIDSeparators (String.toList
        "0123456789abcdef0123456789abcdef")).length ∧
      normalizeUUID (String.toList "0123456789abcdef0123456789abcdef") =
        String.toList "01234567-89ab-cdef-0123-456789abcdef") ∧
    ((String.toList "0123456789abcdef0123456789abcdef").length = 32 ∧
      normalizeUUID (String.toList "01234567-89ab-cdef-0123-456789abcdef") =
        String.toList "01234567-89ab-cdef-0123-456789abcdef") ∧
    ((stripUUIDSeparators (String.toList "abc-123")).length ≤ 20 ∧
      normalizeUUID (String.toList "abc-123") = String.toList "abc-123") := by
  refine ⟨⟨by decide, ?_⟩, ⟨by decide, ?_⟩, by decide, ?_⟩
  · exact (C10_normalizeUUID_idempotent.2.2.1 _ (by decide)).trans (by decide)
  · have h := C10_normalizeUUID_idempotent.2.2.2
      (String.toList "0123456789abcdef0123456789abcdef") (by decide) (by decide)
    have e : String.toList "01234567-89ab-cdef-0123-456789abcdef" =
        dashedUUIDGroups (String.toList "0123456789abcdef0123456789abcdef") := by
      decide
    rw [e]
    exact h
  · exact C10_normalizeUUID_idempotent.2.1 _ (by decide)

/-- Claim C8: parse does not enforce the declared minimum message length.
A 9-byte buffer carrying the signature and one further byte reaches the
unguarded big-endian magic read and faults with an out-of-range index
instead of returning a reported decode error; and a well-formed 17-byte
message far below minMsgLen (40) is accepted, so no minimum-length check
exists on either side. -/
theorem C8_parse_short_buffer_faults :
    (parse (libudev ++ [0xfe]) = .error GoPanic.indexOutOfRange ∧
      (libudev ++ [0xfe]).length < minMsgLen) ∧
    (parse (ueventMsg "") = .ok (.ok []) ∧ (ueventMsg "").length < minMsgLen) := by
  refine ⟨⟨?_, by decide⟩, ?_, by decide⟩ <;> rfl

/-- Claim C3: the subsystem classification is inverted relative to the
specification. The buffer whose SUBSYSTEM is block is rejected with the
not-a-block-device error (the spec requires it to be decoded and
delivered), while the buffer whose SUBSYSTEM is disk is decoded and
delivered (the spec requires the not-a-block-device signal for it). The
read loop accordingly skips the block-subsystem buffer and delivers the
disk one, and a distinct decode error (a magic mismatch) terminates the
loop and propagates without reading further buffers. -/
theorem C3_subsystem_check_inverted
    (readRunUdevData : Int → Int → Except String EventMap) :
    parseUdevData readRunUdevData (fun em => .ok em) blockSubsystemMsg =
      .ok (.error .nonDeviceEvent) ∧
    parseUdevData readRunUdevData (fun em => .ok em) nonBlockSubsystemMsg =
      .ok (.ok [("ACTION", "remove"), ("SUBSYSTEM", "disk")]) ∧
    getNextDeviceUEvent readRunUdevData (fun em => .ok em)
      [blockSubsystemMsg, nonBlockSubsystemMsg] =
      .ok [("ACTION", "remove"), ("SUBSYSTEM", "disk")] ∧
    getNextDeviceUEvent readRunUdevData (fun em => .ok em)
      [badMagicMsg, nonBlockSubsystemMsg] =
      .fail (.parseFailed (.magicMismatch 0)) := by
  refine ⟨?_, ?_, ?_, ?_⟩ <;> rfl

theorem excludeFinalizer_fst (l : List String) (fin : String) :
    (excludeFinalizer l fin).1 = l.filter (fun f => f ≠ fin) := by
  induction l with
  | nil => rfl
  | cons a l ih =>
    by_cases h : a = fin <;> simp [excludeFinalizer, h, ih]

theorem excludeFinalizer_snd (l : List String) (fin : String) :
    (excludeFinalizer l fin).2 = true ↔ fin ∈ l := by
  induction l with
  | nil => simp [excludeFinalizer]
  | cons a l ih =>
    by_cases h : a = fin <;> simp [excludeFinalizer, h, ih]
    exact fun he => absurd he.symm h

theorem filter_ne_eq_erase_of_count_one (l : List String) (a : String)
    (h : l.count a = 1) : l.filter (fun f => f ≠ a) = l.erase a := by
  induction l with
  | nil => simp at h
  | cons b l ih =>
    by_cases hb : b = a
    · subst hb
      have h0 : l.count b = 0 := by
        simpa [List.count_cons] using h
      have hnot : b ∉ l := List.count_eq_zero.mp h0
      have hfl : l.filter (fun f => decide (f ≠ b)) = l := by
        apply List.filter_eq_self.mpr
        intro x hx
        simp only [ne_eq, decide_eq_true_eq]
        exact fun he => hnot (he ▸ hx)
      rw [List.erase_cons_head, List.filter_cons]
      simpa using hfl
    · have h1 : l.count a = 1 := by
        simpa [List.count_cons, hb] using h
      have he : (b :: l).erase a = b :: l.erase a := by
        simp [List.erase_cons, hb]
      rw [he, List.filter_cons]
      have hcond : (fun f => decide (f ≠ a)) b = true := by
        simpa using hb
      simp only [hcond, if_true]
      have := ih h1
      simpa using this

/-- Claim C5: releasing a volume of capacity C against its drive (whose
finalizer list carries the matching drive-to-volume finalizer exactly
once, and whose free capacity satisfies the capacity invariant) adds C to
the free capacity, subtracts C from the allocated capacity, leaves the
total capacity alone, removes exactly that one finalizer, issues the drive
write, and sets the drive status to Ready exactly when the single
remaining finalizer is the data-protection marker. -/
theorem C5_releaseVolume_capacity_and_finalizer (drive : Drive)
    (volumeName : String) (capacity : Int)
    (hcount : drive.finalizers.count (driveFinalizerPfx ++ volumeName) = 1)
    (hfree : drive.FreeCapacity = drive.TotalCapacity - drive.AllocatedCapacity) :
    (releaseVolume drive volumeName capacity).2 = true ∧
    (releaseVolume drive volumeName capacity).1.FreeCapacity =
      drive.FreeCapacity + capacity ∧
    (releaseVolume drive volumeName capacity).1.AllocatedCapacity =
      drive.AllocatedCapacity - capacity ∧
    (releaseVolume drive volumeName capacity).1.TotalCapacity =
      drive.TotalCapacity ∧
    (releaseVolume drive volumeName capacity).1.finalizers =
      drive.finalizers.erase (driveFinalizerPfx ++ volumeName) ∧
    (releaseVolume drive volumeName capacity).1.finalizers.length + 1 =
      drive.finalizers.length ∧
    (releaseVolume drive volumeName capacity).1.DriveStatus =
      (if (releaseVolume drive volumeName capacity).1.finalizers =
          [dataProtectionFinalizer] then directcsi.DriveStatus.Ready
        else drive.DriveStatus) := by
  have hpos : 0 < drive.finalizers.count (driveFinalizerPfx ++ volumeName) := by
    omega
  have hmem : (driveFinalizerPfx ++ volumeName) ∈ drive.finalizers :=
    List.count_pos_iff.mp hpos
  have hfound : (excludeFinalizer drive.finalizers (driveFinalizerPfx ++ volumeName)).2 = true :=
    (excludeFinalizer_snd _ _).mpr hmem
  have hfst : (excludeFinalizer drive.finalizers (driveFinalizerPfx ++ volumeName)).1 =
      drive.finalizers.erase (driveFinalizerPfx ++ volumeName) := by
    rw [excludeFinalizer_fst]
    exact filter_ne_eq_erase_of_count_one _ _ hcount
  have hlen : (drive.finalizers.erase (driveFinalizerPfx ++ volumeName)).length + 1 =
      drive.finalizers.length := by
    rw [List.length_erase_of_mem hmem]
    have := List.length_pos_of_mem hmem
    omega
  rcases he : drive.finalizers.erase (driveFinalizerPfx ++ volumeName) with _ | ⟨f, _ | ⟨g, rest⟩⟩ <;>
    rw [he] at hfst hlen <;>
    simp only [List.length_cons, List.length_nil] at hlen
  · refine ⟨?_, ?_, ?_, ?_, ?_, ?_, ?_⟩ <;>
      simp [releaseVolume, hfst, hfound, he] <;> omega
  · by_cases hf : f = dataProtectionFinalizer <;>
      refine ⟨?_, ?_, ?_, ?_, ?_, ?_, ?_⟩ <;>
        simp [releaseVolume, hfst, hfound, he, hf] <;> omega
  · refine ⟨?_, ?_, ?_, ?_, ?_, ?_, ?_⟩ <;>
      simp [releaseVolume, hfst, hfound, he] <;> omega

/-- Claim C5 (witness): the end-to-end numbers of the specification
scenario: total 100, allocated 50, free 50, finalizers data-protection
plus V20 plus V30; releasing V20 with capacity 20 leaves free 70 and
allocated 30. -/
theorem C5_releaseVolume_capacity_and_finalizer_witness :
    (({ TotalCapacity := 100, AllocatedCapacity := 50, FreeCapacity := 50,
        DriveStatus := .InUse,
        finalizers := [dataProtectionFinalizer, driveFinalizerPfx ++ "V20",
          driveFinalizerPfx ++ "V30"] } : Drive).finalizers.count
        (driveFinalizerPfx ++ "V20") = 1) ∧
    (releaseVolume
        { TotalCapacity := 100, AllocatedCapacity := 50, FreeCapacity := 50,
          DriveStatus := .InUse,
          finalizers := [dataProtectionFinalizer, driveFinalizerPfx ++ "V20",
            driveFinalizerPfx ++ "V30"] } "V20" 20).1.FreeCapacity = 70 ∧
    (releaseVolume
        { TotalCapacity := 100, AllocatedCapacity := 50, FreeCapacity := 50,
          DriveStatus := .InUse,
          finalizers := [dataProtectionFinalizer, driveFinalizerPfx ++ "V20",
            driveFinalizerPfx ++ "V30"] } "V20" 20).1.AllocatedCapacity = 30 := by
  have h := C5_releaseVolume_capacity_and_finalizer
    { TotalCapacity := 100, AllocatedCapacity := 50, FreeCapacity := 50,
      DriveStatus := .InUse,
      finalizers := [dataProtectionFinalizer, driveFinalizerPfx ++ "V20",
        driveFinalizerPfx ++ "V30"] } "V20" 20 (by decide) (by decide)
  refine ⟨by decide, ?_, ?_⟩
  · rw [h.2.1]
    decide
  · rw [h.2.2.1]
    decide

/-- Claim C6: tearing down a volume that is marked for deletion but whose
Published condition is true returns the waiting error and mutates nothing:
both records are returned unchanged, the host directory is not removed and
neither record is written to the store. -/
theorem C6_remove_published_rejected_without_mutation (volume : Volume)
    (drive : Drive) (removeAllOk : Bool)
    (hdel : volume.deletionTimestampIsZero = false)
    (hpub : ∃ c ∈ volume.conditions, c.condType = "Published" ∧ c.status = "True") :
    remove volume drive removeAllOk =
      { err := some "waiting for volume to be released before cleaning up",
        volume := volume, drive := drive, hostPathRemoved := false,
        driveWritten := false, volumeWritten := false } := by
  have hany : volume.conditions.any
      (fun c => c.condType == "Published" && c.status == "True") = true := by
    rcases hpub with ⟨c, hc, h1, h2⟩
    exact List.any_eq_true.mpr ⟨c, hc, by simp [h1, h2]⟩
  simp [remove, hdel, hany]

/-- Claim C6 (witness): concrete published volume pending deletion. -/
theorem C6_remove_published_rejected_without_mutation_witness :
    remove
      { Name := "V20", Drive := "D", TotalCapacity := 20,
        HostPath := "/var/lib/direct-csi/volumes/V20",
        conditions := [{ condType := "Published", status := "True" }],
        finalizers := [purgeProtectionFinalizer],
        deletionTimestampIsZero := false }
      { TotalCapacity := 100 } true =
      { err := some "waiting for volume to be released before cleaning up",
        volume :=
          { Name := "V20", Drive := "D", TotalCapacity := 20,
            HostPath := "/var/lib/direct-csi/volumes/V20",
            conditions := [{ condType := "Published", status := "True" }],
            finalizers := [purgeProtectionFinalizer],
            deletionTimestampIsZero := false },
        drive := { TotalCapacity := 100 }, hostPathRemoved := false,
        driveWritten := false, volumeWritten := false } :=
  C6_remove_published_rejected_without_mutation _ _ true rfl
    ⟨{ condType := "Published", status := "True" }, by decide, rfl, rfl⟩

/-! Identity facts: when the recorded value already equals the observed
one, each reconciliation block returns its input state unchanged. These
drive the no-diff no-write theorem below. -/

theorem upFilesystem_id (device : Device) (s : Drive × Bool)
    (h : fsTypeEqual s.1.Filesystem device.FSType = true) : upFilesystem device s = s := by
  simp [upFilesystem, h]

theorem upTotalCapacity_id (device : Device) (s : Drive × Bool)
    (h : s.1.TotalCapacity = device.Size) : upTotalCapacity device s = s := by
  simp [upTotalCapacity, h]

theorem upLogicalBlockSize_id (device : Device) (s : Drive × Bool)
    (h : s.1.LogicalBlockSize = device.LogicalBlockSize) : upLogicalBlockSize device s = s := by
  simp [upLogicalBlockSize, h]

theorem upModelNumber_id (device : Device) (s : Drive × Bool)
    (h : s.1.ModelNumber = device.Model) : upModelNumber device s = s := by
  simp [upModelNumber, h]

theorem upPartitionNum_id (device : Device) (s : Drive × Bool)
    (h : s.1.PartitionNum = device.Partition) : upPartitionNum device s = s := by
  simp [upPartitionNum, h]

theorem upPhysicalBlockSize_id (device : Device) (s : Drive × Bool)
    (h : s.1.PhysicalBlockSize = device.PhysicalBlockSize) : upPhysicalBlockSize device s = s := by
  simp [upPhysicalBlockSize, h]

theorem upRootPartition_id (device : Device) (s : Drive × Bool)
    (h : s.1.RootPartition = device.Name) : upRootPartition device s = s := by
  simp [upRootPartition, h]

theorem upSerialNumber_id (device : Device) (s : Drive × Bool)
    (h : s.1.SerialNumber = device.Serial) : upSerialNumber device s = s := by
  simp [upSerialNumber, h]

theorem upPartitionUUID_id (device : Device) (s : Drive × Bool)
    (h : s.1.PartitionUUID = device.PartUUID) : upPartitionUUID device s = s := by
  simp [upPartitionUUID, h]

theorem upMajorNumber_id (device : Device) (s : Drive × Bool)
    (h : s.1.MajorNumber = u32 device.Major) : upMajorNumber device s = s := by
  simp [upMajorNumber, h]

theorem upMinorNumber_id (device : Device) (s : Drive × Bool)
    (h : s.1.MinorNumber = u32 device.Minor) : upMinorNumber device s = s := by
  simp [upMinorNumber, h]

theorem upUeventSerial_id (device : Device) (s : Drive × Bool)
    (h : s.1.UeventSerial = device.UeventSerial) : upUeventSerial device s = s := by
  simp [upUeventSerial, h]

theorem upWWID_id (device : Device) (s : Drive × Bool)
    (h : s.1.WWID = device.WWID) : upWWID device s = s := by
  simp [upWWID, h]

theorem upVendor_id (device : Device) (s : Drive × Bool)
    (h : s.1.Vendor = device.Vendor) : upVendor device s = s := by
  simp [upVendor, h]

theorem upDMName_id (device : Device) (s : Drive × Bool)
    (h : s.1.DMName = device.DMName) : upDMName device s = s := by
  simp [upDMName, h]

theorem upDMUUID_id (device : Device) (s : Drive × Bool)
    (h : s.1.DMUUID = device.DMUUID) : upDMUUID device s = s := by
  simp [upDMUUID, h]

theorem upMDUUID_id (device : Device) (s : Drive × Bool)
    (h : s.1.MDUUID = device.MDUUID) : upMDUUID device s = s := by
  simp [upMDUUID, h]

theorem upPartTableUUID_id (device : Device) (s : Drive × Bool)
    (h : s.1.PartTableUUID = device.PTUUID) : upPartTableUUID device s = s := by
  simp [upPartTableUUID, h]

theorem upPartTableType_id (device : Device) (s : Drive × Bool)
    (h : ptTypeEqual s.1.PartTableType device.PTType = true) : upPartTableType device s = s := by
  simp [upPartTableType, h]

theorem upVirtual_id (device : Device) (s : Drive × Bool)
    (h : s.1.Virtual = device.Virtual) : upVirtual device s = s := by
  simp [upVirtual, h]

theorem upReadOnly_id (device : Device) (s : Drive × Bool)
    (h : s.1.ReadOnly = device.ReadOnly) : upReadOnly device s = s := by
  simp [upReadOnly, h]

theorem upPartitioned_id (device : Device) (s : Drive × Bool)
    (h : s.1.Partitioned = device.Partitioned) : upPartitioned device s = s := by
  simp [upPartitioned, h]

theorem upSwapOn_id (device : Device) (s : Drive × Bool)
    (h : s.1.SwapOn = device.SwapOn) : upSwapOn device s = s := by
  simp [upSwapOn, h]

theorem upMaster_id (device : Device) (s : Drive × Bool)
    (h : s.1.Master = device.Master) : upMaster device s = s := by
  simp [upMaster, h]

theorem upPath_id (sanitize : String → String) (device : Device)
    (s : Drive × Bool) (h : s.1.Path = "/dev/" ++ device.Name) :
    upPath sanitize device s = (s.1, s.2, false) := by
  simp [upPath, h]

theorem upFilesystemUUID_id (device : Device) (s : Drive × Bool)
    (h : s.1.FilesystemUUID = device.FSUUID) :
    upFilesystemUUID device s = (s.1, s.2, false) := by
  simp [upFilesystemUUID, h]

theorem upUeventFSUUID_id (device : Device) (s : Drive × Bool)
    (h : s.1.UeventFSUUID = device.UeventFSUUID) :
    upUeventFSUUID device s = (s.1, s.2, false) := by
  simp [upUeventFSUUID, h]

theorem upMount_id (device : Device) (fc : Bool) (s : Drive × Bool)
    (hds : s.1.DriveStatus = directcsi.DriveStatus.InUse)
    (hm : s.1.Mountpoint = device.FirstMountPoint) :
    upMount device fc s = s := by
  simp [upMount, hds, hm]

theorem upDriveStatus_id (device : Device) (s : Drive × Bool)
    (hds : s.1.DriveStatus = directcsi.DriveStatus.InUse) :
    upDriveStatus device s = s := by
  by_cases h : deriveDriveStatus device = s.1.DriveStatus <;>
    simp [upDriveStatus, h, hds]

/-- Claim C9: when the field-by-field diff finds no difference (every
reconciled field of the recorded drive status, here an InUse drive, equals
the corresponding observed device value, including an unchanged filesystem
UUID and an unchanged mount point), update leaves the record untouched and
sets no updated flag, so no store write is issued. -/
theorem C9_update_no_diff_no_write (sanitize : String → String) (device : Device)
    (drive0 : Drive)
    (h0 : drive0.DriveStatus = directcsi.DriveStatus.InUse)
    (h1 : fsTypeEqual drive0.Filesystem device.FSType = true)
    (h2 : drive0.TotalCapacity = device.Size)
    (h3 : drive0.LogicalBlockSize = device.LogicalBlockSize)
    (h4 : drive0.ModelNumber = device.Model)
    (h5 : drive0.PartitionNum = device.Partition)
    (h6 : drive0.Path = "/dev/" ++ device.Name)
    (h7 : drive0.PhysicalBlockSize = device.PhysicalBlockSize)
    (h8 : drive0.RootPartition = device.Name)
    (h9 : drive0.SerialNumber = device.Serial)
    (h10 : drive0.FilesystemUUID = device.FSUUID)
    (h11 : drive0.PartitionUUID = device.PartUUID)
    (h12 : drive0.MajorNumber = u32 device.Major)
    (h13 : drive0.MinorNumber = u32 device.Minor)
    (h14 : drive0.UeventSerial = device.UeventSerial)
    (h15 : drive0.UeventFSUUID = device.UeventFSUUID)
    (h16 : drive0.WWID = device.WWID)
    (h17 : drive0.Vendor = device.Vendor)
    (h18 : drive0.DMName = device.DMName)
    (h19 : drive0.DMUUID = device.DMUUID)
    (h20 : drive0.MDUUID = device.MDUUID)
    (h21 : drive0.PartTableUUID = device.PTUUID)
    (h22 : ptTypeEqual drive0.PartTableType device.PTType = true)
    (h23 : drive0.Virtual = device.Virtual)
    (h24 : drive0.ReadOnly = device.ReadOnly)
    (h25 : drive0.Partitioned = device.Partitioned)
    (h26 : drive0.SwapOn = device.SwapOn)
    (h27 : drive0.Master = device.Master)
    (h28 : drive0.Mountpoint = device.FirstMountPoint) :
    update sanitize device drive0 =
      { drive := drive0, updated := false, nameChanged := false,
        fsUUIDChanged := false } := by
  simp [update, upFilesystem_id, upTotalCapacity_id, upLogicalBlockSize_id,
    upModelNumber_id, upPartitionNum_id, upPath_id, upPhysicalBlockSize_id,
    upRootPartition_id, upSerialNumber_id, upFilesystemUUID_id,
    upPartitionUUID_id, upMajorNumber_id, upMinorNumber_id,
    upUeventSerial_id, upUeventFSUUID_id, upWWID_id, upVendor_id,
    upDMName_id, upDMUUID_id, upMDUUID_id, upPartTableUUID_id,
    upPartTableType_id, upVirtual_id, upReadOnly_id, upPartitioned_id,
    upSwapOn_id, upMaster_id, upMount_id, upDriveStatus_id, h0, h1, h2, h3,
    h4, h5, h6, h7, h8, h9, h10, h11, h12, h13, h14, h15, h16, h17, h18, h19,
    h20, h21, h22, h23, h24, h25, h26, h27, h28]

/-- Claim C9 (witness): a concrete InUse drive reconciled against a device
reporting exactly the recorded state issues no write. -/
theorem C9_update_no_diff_no_write_witness :
    update (fun s => s) c9Device c9Drive =
      { drive := c9Drive, updated := false, nameChanged := false,
        fsUUIDChanged := false } :=
  C9_update_no_diff_no_write (fun s => s) c9Device c9Drive
    (by decide) (by decide) (by decide) (by decide) (by decide) (by decide)
    (by decide) (by decide) (by decide) (by decide) (by decide) (by decide)
    (by decide) (by decide) (by decide) (by decide) (by decide) (by decide)
    (by decide) (by decide) (by decide) (by decide) (by decide) (by decide)
    (by decide) (by decide) (by decide) (by decide) (by decide)

/-- Claim C7 (counterexample): driveEventHandler.update does not treat a
non-empty recorded model number or WWID as stable: with ModelNumber
recorded as M1 and the device reporting M2 (and WWID W1 versus W2), update
overwrites both fields with the device values, contradicting the claim
that a non-empty recorded value is left unchanged. -/
theorem C7_update_overwrite_counterexample :
    c7Drive.ModelNumber = "M1" ∧ c7Drive.WWID = "W1" ∧
    (update (fun s => s) c7Device c7Drive).drive.ModelNumber = "M2" ∧
    (update (fun s => s) c7Device c7Drive).drive.WWID = "W2" := by
  refine ⟨rfl, rfl, ?_, ?_⟩ <;> decide

/-! Frame facts: each reconciliation block leaves the hardware identity
fields it does not own untouched (and the owning block always syncs its
field to the device value). Stated per block so the composed facts about
update below rewrite block by block. -/

theorem upFilesystem_hw (device : Device) (s : Drive × Bool) :
    (upFilesystem device s).1.ModelNumber = s.1.ModelNumber ∧
    (upFilesystem device s).1.SerialNumber = s.1.SerialNumber ∧
    (upFilesystem device s).1.UeventSerial = s.1.UeventSerial ∧
    (upFilesystem device s).1.WWID = s.1.WWID ∧
    (upFilesystem device s).1.Vendor = s.1.Vendor := by
  by_cases h : fsTypeEqual s.1.Filesystem device.FSType = true <;> simp [upFilesystem, h] <;> split_ifs <;> simp

theorem upTotalCapacity_hw (device : Device) (s : Drive × Bool) :
    (upTotalCapacity device s).1.ModelNumber = s.1.ModelNumber ∧
    (upTotalCapacity device s).1.SerialNumber = s.1.SerialNumber ∧
    (upTotalCapacity device s).1.UeventSerial = s.1.UeventSerial ∧
    (upTotalCapacity device s).1.WWID = s.1.WWID ∧
    (upTotalCapacity device s).1.Vendor = s.1.Vendor := by
  by_cases h : s.1.TotalCapacity = device.Size <;> simp [upTotalCapacity, h] <;> split_ifs <;> simp

theorem upLogicalBlockSize_hw (device : Device) (s : Drive × Bool) :
    (upLogicalBlockSize device s).1.ModelNumber = s.1.ModelNumber ∧
    (upLogicalBlockSize device s).1.SerialNumber = s.1.SerialNumber ∧
    (upLogicalBlockSize device s).1.UeventSerial = s.1.UeventSerial ∧
    (upLogicalBlockSize device s).1.WWID = s.1.WWID ∧
    (upLogicalBlockSize device s).1.Vendor = s.1.Vendor := by
  by_cases h : s.1.LogicalBlockSize = device.LogicalBlockSize <;> simp [upLogicalBlockSize, h] <;> split_ifs <;> simp

theorem upPartitionNum_hw (device : Device) (s : Drive × Bool) :
    (upPartitionNum device s).1.ModelNumber = s.1.ModelNumber ∧
    (upPartitionNum device s).1.SerialNumber = s.1.SerialNumber ∧
    (upPartitionNum device s).1.UeventSerial = s.1.UeventSerial ∧
    (upPartitionNum device s).1.WWID = s.1.WWID ∧
    (upPartitionNum device s).1.Vendor = s.1.Vendor := by
  by_cases h : s.1.PartitionNum = device.Partition <;> simp [upPartitionNum, h] <;> split_ifs <;> simp

theorem upPhysicalBlockSize_hw (device : Device) (s : Drive × Bool) :
    (upPhysicalBlockSize device s).1.ModelNumber = s.1.ModelNumber ∧
    (upPhysicalBlockSize device s).1.SerialNumber = s.1.SerialNumber ∧
    (upPhysicalBlockSize device s).1.UeventSerial = s.1.UeventSerial ∧
    (upPhysicalBlockSize device s).1.WWID = s.1.WWID ∧
    (upPhysicalBlockSize device s).1.Vendor = s.1.Vendor := by
  by_cases h : s.1.PhysicalBlockSize = device.PhysicalBlockSize <;> simp [upPhysicalBlockSize, h] <;> split_ifs <;> simp

theorem upRootPartition_hw (device : Device) (s : Drive × Bool) :
    (upRootPartition device s).1.ModelNumber = s.1.ModelNumber ∧
    (upRootPartition device s).1.SerialNumber = s.1.SerialNumber ∧
    (upRootPartition device s).1.UeventSerial = s.1.UeventSerial ∧
    (upRootPartition device s).1.WWID = s.1.WWID ∧
    (upRootPartition device s).1.Vendor = s.1.Vendor := by
  by_cases h : s.1.RootPartition = device.Name <;> simp [upRootPartition, h] <;> split_ifs <;> simp

theorem upPartitionUUID_hw (device : Device) (s : Drive × Bool) :
    (upPartitionUUID device s).1.ModelNumber = s.1.ModelNumber ∧
    (upPartitionUUID device s).1.SerialNumber = s.1.SerialNumber ∧
    (upPartitionUUID device s).1.UeventSerial = s.1.UeventSerial ∧
    (upPartitionUUID device s).1.WWID = s.1.WWID ∧
    (upPartitionUUID device s).1.Vendor = s.1.Vendor := by
  by_cases h : s.1.PartitionUUID = device.PartUUID <;> simp [upPartitionUUID, h] <;> split_ifs <;> simp

theorem upMajorNumber_hw (device : Device) (s : Drive × Bool) :
    (upMajorNumber device s).1.ModelNumber = s.1.ModelNumber ∧
    (upMajorNumber device s).1.SerialNumber = s.1.SerialNumber ∧
    (upMajorNumber device s).1.UeventSerial = s.1.UeventSerial ∧
    (upMajorNumber device s).1.WWID = s.1.WWID ∧
    (upMajorNumber device s).1.Vendor = s.1.Vendor := by
  by_cases h : s.1.MajorNumber = u32 device.Major <;> simp [upMajorNumber, h] <;> split_ifs <;> simp

theorem upMinorNumber_hw (device : Device) (s : Drive × Bool) :
    (upMinorNumber device s).1.ModelNumber = s.1.ModelNumber ∧
    (upMinorNumber device s).1.SerialNumber = s.1.SerialNumber ∧
    (upMinorNumber device s).1.UeventSerial = s.1.UeventSerial ∧
    (upMinorNumber device s).1.WWID = s.1.WWID ∧
    (upMinorNumber device s).1.Vendor = s.1.Vendor := by
  by_cases h : s.1.MinorNumber = u32 device.Minor <;> simp [upMinorNumber, h] <;> split_ifs <;> simp

theorem upDMName_hw (device : Device) (s : Drive × Bool) :
    (upDMName device s).1.ModelNumber = s.1.ModelNumber ∧
    (upDMName device s).1.SerialNumber = s.1.SerialNumber ∧
    (upDMName device s).1.UeventSerial = s.1.UeventSerial ∧
    (upDMName device s).1.WWID = s.1.WWID ∧
    (upDMName device s).1.Vendor = s.1.Vendor := by
  by_cases h : s.1.DMName = device.DMName <;> simp [upDMName, h] <;> split_ifs <;> simp

theorem upDMUUID_hw (device : Device) (s : Drive × Bool) :
    (upDMUUID device s).1.ModelNumber = s.1.ModelNumber ∧
    (upDMUUID device s).1.SerialNumber = s.1.SerialNumber ∧
    (upDMUUID device s).1.UeventSerial = s.1.UeventSerial ∧
    (upDMUUID device s).1.WWID = s.1.WWID ∧
    (upDMUUID device s).1.Vendor = s.1.Vendor := by
  by_cases h : s.1.DMUUID = device.DMUUID <;> simp [upDMUUID, h] <;> split_ifs <;> simp

theorem upMDUUID_hw (device : Device) (s : Drive × Bool) :
    (upMDUUID device s).1.ModelNumber = s.1.ModelNumber ∧
    (upMDUUID device s).1.SerialNumber = s.1.SerialNumber ∧
    (upMDUUID device s).1.UeventSerial = s.1.UeventSerial ∧
    (upMDUUID device s).1.WWID = s.1.WWID ∧
    (upMDUUID device s).1.Vendor = s.1.Vendor := by
  by_cases h : s.1.MDUUID = device.MDUUID <;> simp [upMDUUID, h] <;> split_ifs <;> simp

theorem upPartTableUUID_hw (device : Device) (s : Drive × Bool) :
    (upPartTableUUID device s).1.ModelNumber = s.1.ModelNumber ∧
    (upPartTableUUID device s).1.SerialNumber = s.1.SerialNumber ∧
    (upPartTableUUID device s).1.UeventSerial = s.1.UeventSerial ∧
    (upPartTableUUID device s).1.WWID = s.1.WWID ∧
    (upPartTableUUID device s).1.Vendor = s.1.Vendor := by
  by_cases h : s.1.PartTableUUID = device.PTUUID <;> simp [upPartTableUUID, h] <;> split_ifs <;> simp

theorem upPartTableType_hw (device : Device) (s : Drive × Bool) :
    (upPartTableType device s).1.ModelNumber = s.1.ModelNumber ∧
    (upPartTableType device s).1.SerialNumber = s.1.SerialNumber ∧
    (upPartTableType device s).1.UeventSerial = s.1.UeventSerial ∧
    (upPartTableType device s).1.WWID = s.1.WWID ∧
    (upPartTableType device s).1.Vendor = s.1.Vendor := by
  by_cases h : ptTypeEqual s.1.PartTableType device.PTType = true <;> simp [upPartTableType, h] <;> split_ifs <;> simp

theorem upVirtual_hw (device : Device) (s : Drive × Bool) :
    (upVirtual device s).1.ModelNumber = s.1.ModelNumber ∧
    (upVirtual device s).1.SerialNumber = s.1.SerialNumber ∧
    (upVirtual device s).1.UeventSerial = s.1.UeventSerial ∧
    (upVirtual device s).1.WWID = s.1.WWID ∧
    (upVirtual device s).1.Vendor = s.1.Vendor := by
  by_cases h : s.1.Virtual = device.Virtual <;> simp [upVirtual, h] <;> split_ifs <;> simp

theorem upReadOnly_hw (device : Device) (s : Drive × Bool) :
    (upReadOnly device s).1.ModelNumber = s.1.ModelNumber ∧
    (upReadOnly device s).1.SerialNumber = s.1.SerialNumber ∧
    (upReadOnly device s).1.UeventSerial = s.1.UeventSerial ∧
    (upReadOnly device s).1.WWID = s.1.WWID ∧
    (upReadOnly device s).1.Vendor = s.1.Vendor := by
  by_cases h : s.1.ReadOnly = device.ReadOnly <;> simp [upReadOnly, h] <;> split_ifs <;> simp

theorem upPartitioned_hw (device : Device) (s : Drive × Bool) :
    (upPartitioned device s).1.ModelNumber = s.1.ModelNumber ∧
    (upPartitioned device s).1.SerialNumber = s.1.SerialNumber ∧
    (upPartitioned device s).1.UeventSerial = s.1.UeventSerial ∧
    (upPartitioned device s).1.WWID = s.1.WWID ∧
    (upPartitioned device s).1.Vendor = s.1.Vendor := by
  by_cases h : s.1.Partitioned = device.Partitioned <;> simp [upPartitioned, h] <;> split_ifs <;> simp

theorem upSwapOn_hw (device : Device) (s : Drive × Bool) :
    (upSwapOn device s).1.ModelNumber = s.1.ModelNumber ∧
    (upSwapOn device s).1.SerialNumber = s.1.SerialNumber ∧
    (upSwapOn device s).1.UeventSerial = s.1.UeventSerial ∧
    (upSwapOn device s).1.WWID = s.1.WWID ∧
    (upSwapOn device s).1.Vendor = s.1.Vendor := by
  by_cases h : s.1.SwapOn = device.SwapOn <;> simp [upSwapOn, h] <;> split_ifs <;> simp

theorem upMaster_hw (device : Device) (s : Drive × Bool) :
    (upMaster device s).1.ModelNumber = s.1.ModelNumber ∧
    (upMaster device s).1.SerialNumber = s.1.SerialNumber ∧
    (upMaster device s).1.UeventSerial = s.1.UeventSerial ∧
    (upMaster device s).1.WWID = s.1.WWID ∧
    (upMaster device s).1.Vendor = s.1.Vendor := by
  by_cases h : s.1.Master = device.Master <;> simp [upMaster, h] <;> split_ifs <;> simp

theorem upModelNumber_hw (device : Device) (s : Drive × Bool) :
    (upModelNumber device s).1.ModelNumber = device.Model ∧
    (upModelNumber device s).1.SerialNumber = s.1.SerialNumber ∧
    (upModelNumber device s).1.UeventSerial = s.1.UeventSerial ∧
    (upModelNumber device s).1.WWID = s.1.WWID ∧
    (upModelNumber device s).1.Vendor = s.1.Vendor := by
  by_cases h : s.1.ModelNumber = device.Model <;> simp [upModelNumber, h]

theorem upSerialNumber_hw (device : Device) (s : Drive × Bool) :
    (upSerialNumber device s).1.ModelNumber = s.1.ModelNumber ∧
    (upSerialNumber device s).1.SerialNumber = device.Serial ∧
    (upSerialNumber device s).1.UeventSerial = s.1.UeventSerial ∧
    (upSerialNumber device s).1.WWID = s.1.WWID ∧
    (upSerialNumber device s).1.Vendor = s.1.Vendor := by
  by_cases h : s.1.SerialNumber = device.Serial <;> simp [upSerialNumber, h]

theorem upUeventSerial_hw (device : Device) (s : Drive × Bool) :
    (upUeventSerial device s).1.ModelNumber = s.1.ModelNumber ∧
    (upUeventSerial device s).1.SerialNumber = s.1.SerialNumber ∧
    (upUeventSerial device s).1.UeventSerial = device.UeventSerial ∧
    (upUeventSerial device s).1.WWID = s.1.WWID ∧
    (upUeventSerial device s).1.Vendor = s.1.Vendor := by
  by_cases h : s.1.UeventSerial = device.UeventSerial <;> simp [upUeventSerial, h]

theorem upWWID_hw (device : Device) (s : Drive × Bool) :
    (upWWID device s).1.ModelNumber = s.1.ModelNumber ∧
    (upWWID device s).1.SerialNumber = s.1.SerialNumber ∧
    (upWWID device s).1.UeventSerial = s.1.UeventSerial ∧
    (upWWID device s).1.WWID = device.WWID ∧
    (upWWID device s).1.Vendor = s.1.Vendor := by
  by_cases h : s.1.WWID = device.WWID <;> simp [upWWID, h]

theorem upVendor_hw (device : Device) (s : Drive × Bool) :
    (upVendor device s).1.ModelNumber = s.1.ModelNumber ∧
    (upVendor device s).1.SerialNumber = s.1.SerialNumber ∧
    (upVendor device s).1.UeventSerial = s.1.UeventSerial ∧
    (upVendor device s).1.WWID = s.1.WWID ∧
    (upVendor device s).1.Vendor = device.Vendor := by
  by_cases h : s.1.Vendor = device.Vendor <;> simp [upVendor, h]

theorem upPath_hw (sanitize : String → String) (device : Device)
    (s : Drive × Bool) :
    (upPath sanitize device s).1.ModelNumber = s.1.ModelNumber ∧
    (upPath sanitize device s).1.SerialNumber = s.1.SerialNumber ∧
    (upPath sanitize device s).1.UeventSerial = s.1.UeventSerial ∧
    (upPath sanitize device s).1.WWID = s.1.WWID ∧
    (upPath sanitize device s).1.Vendor = s.1.Vendor := by
  by_cases h : s.1.Path = "/dev/" ++ device.Name <;> simp [upPath, h]

theorem upFilesystemUUID_hw (device : Device) (s : Drive × Bool) :
    (upFilesystemUUID device s).1.ModelNumber = s.1.ModelNumber ∧
    (upFilesystemUUID device s).1.SerialNumber = s.1.SerialNumber ∧
    (upFilesystemUUID device s).1.UeventSerial = s.1.UeventSerial ∧
    (upFilesystemUUID device s).1.WWID = s.1.WWID ∧
    (upFilesystemUUID device s).1.Vendor = s.1.Vendor := by
  by_cases h : s.1.FilesystemUUID = device.FSUUID <;> simp [upFilesystemUUID, h]

theorem upUeventFSUUID_hw (device : Device) (s : Drive × Bool) :
    (upUeventFSUUID device s).1.ModelNumber = s.1.ModelNumber ∧
    (upUeventFSUUID device s).1.SerialNumber = s.1.SerialNumber ∧
    (upUeventFSUUID device s).1.UeventSerial = s.1.UeventSerial ∧
    (upUeventFSUUID device s).1.WWID = s.1.WWID ∧
    (upUeventFSUUID device s).1.Vendor = s.1.Vendor := by
  by_cases h : s.1.UeventFSUUID = device.UeventFSUUID <;> simp [upUeventFSUUID, h]

theorem upMount_hw (device : Device) (fc : Bool) (s : Drive × Bool) :
    (upMount device fc s).1.ModelNumber = s.1.ModelNumber ∧
    (upMount device fc s).1.SerialNumber = s.1.SerialNumber ∧
    (upMount device fc s).1.UeventSerial = s.1.UeventSerial ∧
    (upMount device fc s).1.WWID = s.1.WWID ∧
    (upMount device fc s).1.Vendor = s.1.Vendor := by
  cases hds : s.1.DriveStatus <;> simp [upMount, hds] <;> split_ifs <;> simp

theorem upDriveStatus_hw (device : Device) (s : Drive × Bool) :
    (upDriveStatus device s).1.ModelNumber = s.1.ModelNumber ∧
    (upDriveStatus device s).1.SerialNumber = s.1.SerialNumber ∧
    (upDriveStatus device s).1.UeventSerial = s.1.UeventSerial ∧
    (upDriveStatus device s).1.WWID = s.1.WWID ∧
    (upDriveStatus device s).1.Vendor = s.1.Vendor := by
  by_cases h : deriveDriveStatus device = s.1.DriveStatus
  · simp [upDriveStatus, h]
  · cases hds : s.1.DriveStatus <;> rw [hds] at h <;> simp [upDriveStatus, h, hds]

theorem syncBase_hw (nodeID : String) (topology : List (String × String))
    (device : Device) (drive : Drive) :
    (syncBase nodeID topology device drive).ModelNumber = drive.ModelNumber ∧
    (syncBase nodeID topology device drive).SerialNumber = drive.SerialNumber ∧
    (syncBase nodeID topology device drive).UeventSerial = drive.UeventSerial ∧
    (syncBase nodeID topology device drive).WWID = drive.WWID ∧
    (syncBase nodeID topology device drive).Vendor = drive.Vendor := by
  refine ⟨rfl, rfl, rfl, rfl, rfl⟩

theorem fillModelNumber_hw (device : Device) (d : Drive) :
    (fillModelNumber device d).ModelNumber = (if d.ModelNumber = "" then device.Model else d.ModelNumber) ∧
    (fillModelNumber device d).SerialNumber = d.SerialNumber ∧
    (fillModelNumber device d).UeventSerial = d.UeventSerial ∧
    (fillModelNumber device d).WWID = d.WWID ∧
    (fillModelNumber device d).Vendor = d.Vendor := by
  by_cases h : d.ModelNumber = "" <;> simp [fillModelNumber, h]

theorem fillSerialNumber_hw (device : Device) (d : Drive) :
    (fillSerialNumber device d).ModelNumber = d.ModelNumber ∧
    (fillSerialNumber device d).SerialNumber = (if d.SerialNumber = "" then device.Serial else d.SerialNumber) ∧
    (fillSerialNumber device d).UeventSerial = d.UeventSerial ∧
    (fillSerialNumber device d).WWID = d.WWID ∧
    (fillSerialNumber device d).Vendor = d.Vendor := by
  by_cases h : d.SerialNumber = "" <;> simp [fillSerialNumber, h]

theorem fillUeventSerial_hw (device : Device) (d : Drive) :
    (fillUeventSerial device d).ModelNumber = d.ModelNumber ∧
    (fillUeventSerial device d).SerialNumber = d.SerialNumber ∧
    (fillUeventSerial device d).UeventSerial = (if d.UeventSerial = "" then device.UeventSerial else d.UeventSerial) ∧
    (fillUeventSerial device d).WWID = d.WWID ∧
    (fillUeventSerial device d).Vendor = d.Vendor := by
  by_cases h : d.UeventSerial = "" <;> simp [fillUeventSerial, h]

theorem fillWWID_hw (device : Device) (d : Drive) :
    (fillWWID device d).ModelNumber = d.ModelNumber ∧
    (fillWWID device d).SerialNumber = d.SerialNumber ∧
    (fillWWID device d).UeventSerial = d.UeventSerial ∧
    (fillWWID device d).WWID = (if d.WWID = "" then device.WWID else d.WWID) ∧
    (fillWWID device d).Vendor = d.Vendor := by
  by_cases h : d.WWID = "" <;> simp [fillWWID, h]

theorem fillVendor_hw (device : Device) (d : Drive) :
    (fillVendor device d).ModelNumber = d.ModelNumber ∧
    (fillVendor device d).SerialNumber = d.SerialNumber ∧
    (fillVendor device d).UeventSerial = d.UeventSerial ∧
    (fillVendor device d).WWID = d.WWID ∧
    (fillVendor device d).Vendor = (if d.Vendor = "" then device.Vendor else d.Vendor) := by
  by_cases h : d.Vendor = "" <;> simp [fillVendor, h]

theorem syncStatusPathCapacity_hw (sanitize : String → String)
    (device : Device) (d : Drive) :
    (syncStatusPathCapacity sanitize device d).ModelNumber = d.ModelNumber ∧
    (syncStatusPathCapacity sanitize device d).SerialNumber = d.SerialNumber ∧
    (syncStatusPathCapacity sanitize device d).UeventSerial = d.UeventSerial ∧
    (syncStatusPathCapacity sanitize device d).WWID = d.WWID ∧
    (syncStatusPathCapacity sanitize device d).Vendor = d.Vendor := by
  refine ⟨?_, ?_, ?_, ?_, ?_⟩ <;>
    simp [syncStatusPathCapacity] <;> split_ifs <;> simp

/-- Claim C7 (amended): the fill-only-if-empty policy for the hardware
identity fields (model number, serial number, uevent serial, WWID, vendor)
holds for syncDriveStates, which writes each of them only when the
recorded value is empty; driveEventHandler.update instead always syncs all
five fields to the device-observed values, overwriting a non-empty
recorded value whenever the device reports a different one. -/
theorem C7_hw_identity_fill (nodeID : String) (topology : List (String × String))
    (sanitize : String → String) (device : Device) (drive : Drive) :
    ((syncDriveStates nodeID topology sanitize device drive).ModelNumber =
      if drive.ModelNumber = "" then device.Model else drive.ModelNumber) ∧
    ((syncDriveStates nodeID topology sanitize device drive).SerialNumber =
      if drive.SerialNumber = "" then device.Serial else drive.SerialNumber) ∧
    ((syncDriveStates nodeID topology sanitize device drive).UeventSerial =
      if drive.UeventSerial = "" then device.UeventSerial else drive.UeventSerial) ∧
    ((syncDriveStates nodeID topology sanitize device drive).WWID =
      if drive.WWID = "" then device.WWID else drive.WWID) ∧
    ((syncDriveStates nodeID topology sanitize device drive).Vendor =
      if drive.Vendor = "" then device.Vendor else drive.Vendor) ∧
    ((update sanitize device drive).drive.ModelNumber = device.Model) ∧
    ((update sanitize device drive).drive.SerialNumber = device.Serial) ∧
    ((update sanitize device drive).drive.UeventSerial = device.UeventSerial) ∧
    ((update sanitize device drive).drive.WWID = device.WWID) ∧
    ((update sanitize device drive).drive.Vendor = device.Vendor) := by
  refine ⟨?_, ?_, ?_, ?_, ?_, ?_, ?_, ?_, ?_, ?_⟩ <;>
    first
    | simp [syncDriveStates, syncStatusPathCapacity_hw, fillVendor_hw, fillWWID_hw,
      fillUeventSerial_hw, fillSerialNumber_hw, fillModelNumber_hw, syncBase_hw]
    | simp [update, upFilesystem_hw, upTotalCapacity_hw, upLogicalBlockSize_hw,
      upModelNumber_hw, upPartitionNum_hw, upPath_hw, upPhysicalBlockSize_hw,
      upRootPartition_hw, upSerialNumber_hw, upFilesystemUUID_hw,
      upPartitionUUID_hw, upMajorNumber_hw, upMinorNumber_hw,
      upUeventSerial_hw, upUeventFSUUID_hw, upWWID_hw, upVendor_hw,
      upDMName_hw, upDMUUID_hw, upMDUUID_hw, upPartTableUUID_hw,
      upPartTableType_hw, upVirtual_hw, upReadOnly_hw, upPartitioned_hw,
      upSwapOn_hw, upMaster_hw, upMount_hw, upDriveStatus_hw]
